import Mathlib

/-!
Shallow embedding of the CodeSync operational-transformation engine
(`backend/src/services/operationTransform.ts`).

Modelling conventions:
* JavaScript `number` values used as lengths, timestamps and string indices
  are modelled as `Int` (all uses in the source are integral).
* The TypeScript interface `Operation` declares `id`, `author`, `fileId`
  (the spec's `documentId`) and `timestamp` as required and `content`,
  `length` as optional; the embedding mirrors this with `Option` fields for
  the latter two.  JavaScript truthiness tests (`!op.id`, `!op.timestamp`,
  `if (since)`) become emptiness / zero tests on the required fields.
* The internal `TextOperation` step record `{type, length?, content?}` is
  only ever built with the well-formed shapes `retain(length)`,
  `insert(content)`, `delete(length)`, so it is modelled as the inductive
  `TextOp`; the non-null assertions `op.length!` / `op.content!` on an
  `Operation`'s optional fields are modelled with `Option.getD` defaults.
* `textOpToOperation` reads `textOp.ops[0]`; when the script is empty the
  JavaScript code dereferences `undefined` and throws a `TypeError`.  The
  embedding returns `Option`/an error constructor at exactly those points
  (`transform` yields `none`, `compose` yields
  `ComposeResult.errorUndefinedFirstStep`).
* `String.prototype.substring` clamps its (possibly out-of-range) integer
  arguments to `[0, s.length]` and swaps them when reversed; `jsSubstring`
  reproduces this.
-/

namespace CodeSync

/-- Wire-level operation (`interface Operation` in the source; the spec
calls the `fileId` field `documentId`). -/
structure Operation where
  id : String
  type : String
  length : Option Int
  content : Option String
  author : String
  timestamp : Int
  fileId : String
deriving DecidableEq, Repr

/-- One step of the internal `TextOperation` edit script. -/
inductive TextOp where
  | retain (length : Int)
  | insert (content : String)
  | delete (length : Int)
deriving DecidableEq, Repr

/-- Clamp a JavaScript string index into `[0, len]`. -/
def clampIndex (i : Int) (len : Nat) : Nat :=
  (min (max i 0) (len : Int)).toNat

/-- JavaScript `s.substring(a, b)`: clamp both indices to `[0, s.length]`
and swap them when `a > b`. -/
def jsSubstring (s : String) (a b : Int) : String :=
  let x := clampIndex a s.length
  let y := clampIndex b s.length
  if x ≤ y then String.mk ((s.toList.drop x).take (y - x))
  else String.mk ((s.toList.drop y).take (x - y))

/-- `OperationTransform.operationToTextOp`: expand a single `Operation`
into its edit script.  An unrecognised `type` falls through the `switch`
and yields the empty script. -/
def operationToTextOp (op : Operation) : List TextOp :=
  if op.type = "insert" then [TextOp.insert (op.content.getD "")]
  else if op.type = "delete" then [TextOp.delete (op.length.getD 0)]
  else if op.type = "retain" then [TextOp.retain (op.length.getD 0)]
  else []

/-- The `type` string stored in a `TextOperation` step. -/
def stepType : TextOp → String
  | TextOp.retain _ => "retain"
  | TextOp.insert _ => "insert"
  | TextOp.delete _ => "delete"

/-- The `content` field stored in a `TextOperation` step (`undefined`
except for inserts). -/
def stepContent : TextOp → Option String
  | TextOp.insert s => some s
  | _ => none

/-- The `length` field stored in a `TextOperation` step (`undefined` for
inserts). -/
def stepLength : TextOp → Option Int
  | TextOp.retain n => some n
  | TextOp.delete n => some n
  | TextOp.insert _ => none

/-- `OperationTransform.textOpToOperation`: keep only the first step of
the script, spread over the original operation's metadata.  On an empty
script the source reads `.type` of `undefined` and throws; that is the
`none` case. -/
def textOpToOperation (ops : List TextOp) (originalOp : Operation) : Option Operation :=
  match ops with
  | [] => none
  | firstOp :: _ =>
      some { originalOp with
              type := stepType firstOp
              content := stepContent firstOp
              length := stepLength firstOp }

/-- `OperationTransform.applyTextOperation`'s loop, carrying the running
input cursor `index`; the accumulated `result` is the returned string. -/
def applyTextOpsFrom (text : String) (index : Int) : List TextOp → String
  | [] => ""
  | TextOp.retain n :: rest =>
      jsSubstring text index (index + n) ++ applyTextOpsFrom text (index + n) rest
  | TextOp.insert s :: rest => s ++ applyTextOpsFrom text index rest
  | TextOp.delete n :: rest => applyTextOpsFrom text (index + n) rest

/-- `OperationTransform.applyTextOperation`. -/
def applyTextOperation (text : String) (ops : List TextOp) : String :=
  applyTextOpsFrom text 0 ops

/-- `OperationTransform.applyOperation`. -/
def applyOperation (text : String) (op : Operation) : String :=
  applyTextOperation text (operationToTextOp op)

/-- `OperationTransform.compactTextOperation`'s loop: the accumulator holds
the already-compacted output in reverse, its head being the source's
`lastOp`; a step whose type matches `lastOp` is merged into it (lengths
summed for retain/delete, contents concatenated for insert), otherwise it
is pushed. -/
def compactAux : List TextOp → List TextOp → List TextOp
  | acc, [] => acc.reverse
  | [], op :: rest => compactAux [op] rest
  | lastOp :: accRest, op :: rest =>
      match lastOp, op with
      | TextOp.retain a, TextOp.retain b => compactAux (TextOp.retain (a + b) :: accRest) rest
      | TextOp.delete a, TextOp.delete b => compactAux (TextOp.delete (a + b) :: accRest) rest
      | TextOp.insert s, TextOp.insert t => compactAux (TextOp.insert (s ++ t) :: accRest) rest
      | l, o => compactAux (o :: l :: accRest) rest

/-- `OperationTransform.compactTextOperation`. -/
def compactTextOperation (ops : List TextOp) : List TextOp :=
  compactAux [] ops

/-- The two-cursor sweep of `OperationTransform.transformTextOperations`
(before the final compaction).  The source mutates the head steps'
lengths in place and advances the cursor `i`/`j` over a step exactly when
its remaining length reaches `0`; the embedding instead recurses on the
lists with the mutated head re-consed.  In the `Math.min` cases the
source's `length -= min; if (length === 0) advance` bookkeeping is spelled
out as the three-way comparison of the two lengths, which advances the
same cursors for every pair of `Int` lengths. -/
def transformSteps : List TextOp → List TextOp → Bool → List TextOp
  | [], l2, _ => l2
  | l1, [], _ => l1
  | TextOp.retain m :: t1, TextOp.retain n :: t2, p =>
      if m = n then TextOp.retain m :: transformSteps t1 t2 p
      else if m < n then TextOp.retain m :: transformSteps t1 (TextOp.retain (n - m) :: t2) p
      else TextOp.retain n :: transformSteps (TextOp.retain (m - n) :: t1) t2 p
  | TextOp.insert s :: t1, TextOp.insert s2 :: t2, p =>
      if p then TextOp.insert s :: transformSteps t1 (TextOp.insert s2 :: t2) p
      else TextOp.retain (s2.length : Int) :: TextOp.insert s :: transformSteps t1 t2 p
  | TextOp.insert s :: t1, TextOp.retain n :: t2, p =>
      TextOp.insert s :: transformSteps t1 (TextOp.retain n :: t2) p
  | TextOp.insert s :: t1, TextOp.delete n :: t2, p =>
      TextOp.insert s :: transformSteps t1 (TextOp.delete n :: t2) p
  | TextOp.retain m :: t1, TextOp.insert s2 :: t2, p =>
      TextOp.retain (s2.length : Int) :: transformSteps (TextOp.retain m :: t1) t2 p
  | TextOp.retain m :: t1, TextOp.delete n :: t2, p =>
      if m ≤ n then
        (if m = n then transformSteps t1 t2 p
         else transformSteps t1 (TextOp.delete (n - m) :: t2) p)
      else transformSteps (TextOp.retain (m - n) :: t1) t2 p
  | TextOp.delete m :: t1, TextOp.retain n :: t2, p =>
      if m ≤ n then
        TextOp.delete m ::
          (if m = n then transformSteps t1 t2 p
           else transformSteps t1 (TextOp.retain (n - m) :: t2) p)
      else TextOp.delete n :: transformSteps (TextOp.delete (m - n) :: t1) t2 p
  | TextOp.delete m :: t1, TextOp.insert s2 :: t2, p =>
      TextOp.retain (s2.length : Int) :: transformSteps (TextOp.delete m :: t1) t2 p
  | TextOp.delete m :: t1, TextOp.delete n :: t2, p =>
      if m = n then transformSteps t1 t2 p
      else if m < n then transformSteps t1 (TextOp.delete (n - m) :: t2) p
      else transformSteps (TextOp.delete (m - n) :: t1) t2 p
termination_by l1 l2 _ => l1.length + l2.length
decreasing_by all_goals (simp [List.length_cons] <;> omega)

/-- `OperationTransform.transformTextOperations` (sweep plus final
compaction). -/
def transformTextOperations (l1 l2 : List TextOp) (priority : Bool) : List TextOp :=
  compactTextOperation (transformSteps l1 l2 priority)

/-- `OperationTransform.transform`. `none` is the `TypeError` thrown by
`textOpToOperation` on an empty transformed script. -/
def transform (op1 op2 : Operation) (priority : Bool) : Option Operation :=
  if op1.fileId ≠ op2.fileId then some op1
  else
    textOpToOperation
      (transformTextOperations (operationToTextOp op1) (operationToTextOp op2) priority) op1

/-- Outcome of `OperationTransform.compose`: a composed operation, the
explicit `Cannot compose operations on different files` error, or the
`TypeError` thrown by `textOpToOperation` when the composed script is
empty. -/
inductive ComposeResult where
  | ok (op : Operation)
  | errorDifferentFiles
  | errorUndefinedFirstStep
deriving DecidableEq, Repr

/-- The sweep of `OperationTransform.composeTextOperations` (before the
final compaction).  All step pairs other than retain/retain,
insert/retain and insert/delete fall into the source's `else` branch,
which pushes the first operation's step and advances only the first
cursor. -/
def composeSteps : List TextOp → List TextOp → List TextOp
  | [], l2 => l2
  | l1, [] => l1
  | TextOp.retain m :: t1, TextOp.retain n :: t2 =>
      if m = n then TextOp.retain m :: composeSteps t1 t2
      else if m < n then TextOp.retain m :: composeSteps t1 (TextOp.retain (n - m) :: t2)
      else TextOp.retain n :: composeSteps (TextOp.retain (m - n) :: t1) t2
  | TextOp.insert s :: t1, TextOp.retain n :: t2 =>
      if (s.length : Int) = n then TextOp.insert s :: composeSteps t1 t2
      else TextOp.insert s :: composeSteps t1 (TextOp.retain (n - (s.length : Int)) :: t2)
  | TextOp.insert s :: t1, TextOp.delete n :: t2 =>
      if (s.length : Int) ≤ n then
        (if (s.length : Int) = n then composeSteps t1 t2
         else composeSteps t1 (TextOp.delete (n - (s.length : Int)) :: t2))
      else TextOp.insert (jsSubstring s n (s.length : Int)) :: composeSteps t1 t2
  | a :: t1, b :: t2 => a :: composeSteps t1 (b :: t2)
termination_by l1 l2 => l1.length + l2.length
decreasing_by all_goals (simp [List.length_cons] <;> omega)

/-- `OperationTransform.composeTextOperations` (sweep plus final
compaction). -/
def composeTextOperations (l1 l2 : List TextOp) : List TextOp :=
  compactTextOperation (composeSteps l1 l2)

/-- `OperationTransform.compose`.  The composed result carries the later
operation's `id` and `timestamp`. -/
def compose (op1 op2 : Operation) : ComposeResult :=
  if op1.fileId ≠ op2.fileId then ComposeResult.errorDifferentFiles
  else
    match textOpToOperation
        (composeTextOperations (operationToTextOp op1) (operationToTextOp op2))
        { op1 with id := op2.id, timestamp := op2.timestamp } with
    | none => ComposeResult.errorUndefinedFirstStep
    | some r => ComposeResult.ok r

/-- `OperationTransform.isValidOperation`.  The source's `!op.id` &c. are
JavaScript truthiness tests on the required fields, so an empty string or
a zero timestamp is rejected exactly like a missing field would be. -/
def isValidOperation (op : Operation) : Bool :=
  if op.id = "" || op.author = "" || op.fileId = "" || op.timestamp == 0 then false
  else if op.type = "insert" then
    match op.content with
    | some s => decide (0 < s.length)
    | none => false
  else if op.type = "delete" || op.type = "retain" then
    match op.length with
    | some n => decide (0 < n)
    | none => false
  else false

/-- `OperationHistory.maxHistorySize`. -/
def maxHistorySize : Nat := 1000

/-- Per-file body of `OperationHistory.addOperation`: push, then
`splice(0, length - maxHistorySize)` when over capacity. -/
def addOperationList (history : List Operation) (op : Operation) : List Operation :=
  let h := history ++ [op]
  if maxHistorySize < h.length then h.drop (h.length - maxHistorySize) else h

/-- The `OperationHistory` map, a file id keyed store of per-file logs
(`Map.get` of an absent key gives the empty log). -/
def emptyHistory : String → List Operation := fun _ => []

/-- `OperationHistory.addOperation`. -/
def addOperation (st : String → List Operation) (fileId : String) (op : Operation) :
    String → List Operation :=
  fun f => if f = fileId then addOperationList (st f) op else st f

/-- `OperationHistory.getOperations`.  `if (since)` is a truthiness test:
the filter runs only for a present, non-zero `since`. -/
def getOperations (st : String → List Operation) (fileId : String) (since : Option Int) :
    List Operation :=
  let history := st fileId
  match since with
  | some t =>
      if t = 0 then history else history.filter (fun op => decide (t < op.timestamp))
  | none => history

/-- Replay of a sequence of `addOperation` calls against a fresh
`OperationHistory`. -/
def runAppends (calls : List (String × Operation)) : String → List Operation :=
  calls.foldl (fun st c => addOperation st c.1 c.2) emptyHistory

/-! Concrete operations used by the claims. -/

/-- The convergence scenario's first operation: author `a` inserts
`" Beautiful"` at timestamp 1000. -/
def opA : Operation :=
  { id := "opA", type := "insert", length := none, content := some " Beautiful",
    author := "a", timestamp := 1000, fileId := "doc1" }

/-- The convergence scenario's second operation: author `b` inserts
`" Amazing"` at timestamp 1000. -/
def opB : Operation :=
  { id := "opB", type := "insert", length := none, content := some " Amazing",
    author := "b", timestamp := 1000, fileId := "doc1" }

/-- Value of `transform(opA, opB, true)`: the compaction glues both
inserts into a single `" Beautiful Amazing"` insert. -/
def opA' : Operation :=
  { id := "opA", type := "insert", length := none, content := some " Beautiful Amazing",
    author := "a", timestamp := 1000, fileId := "doc1" }

/-- Value of `transform(opB, opA, false)`: the script `[retain 10,
insert " Amazing"]` collapses to its first step, a bare `retain 10`. -/
def opB' : Operation :=
  { id := "opB", type := "retain", length := some 10, content := none,
    author := "b", timestamp := 1000, fileId := "doc1" }

/-- Sequential-composition scenario: author `a` inserts `"ab"`. -/
def c2op1 : Operation :=
  { id := "op1", type := "insert", length := none, content := some "ab",
    author := "a", timestamp := 1000, fileId := "doc1" }

/-- Sequential-composition scenario: author `a` then inserts `"cd"`. -/
def c2op2 : Operation :=
  { id := "op2", type := "insert", length := none, content := some "cd",
    author := "a", timestamp := 2000, fileId := "doc1" }

/-- Value of `compose(c2op1, c2op2)`: the two inserts are concatenated. -/
def c2comp : Operation :=
  { id := "op2", type := "insert", length := none, content := some "abcd",
    author := "a", timestamp := 2000, fileId := "doc1" }

/-- A delete of length 2 on the same file, fully absorbing `c2op1`'s
insert when composed after it. -/
def c6op2 : Operation :=
  { id := "op2", type := "delete", length := some 2, content := none,
    author := "a", timestamp := 2000, fileId := "doc1" }

/-- `Delete(length=6)` from the spec's apply examples. -/
def deleteSix : Operation :=
  { id := "d6", type := "delete", length := some 6, content := none,
    author := "a", timestamp := 1, fileId := "f" }

/-- `Retain(length=5)` from the spec's apply examples. -/
def retainFive : Operation :=
  { id := "r5", type := "retain", length := some 5, content := none,
    author := "a", timestamp := 1, fileId := "f" }

/-- `Insert("Hello")` from the spec's apply examples. -/
def insertHello : Operation :=
  { id := "i", type := "insert", length := none, content := some "Hello",
    author := "a", timestamp := 1, fileId := "f" }

/-- `Delete(length=10)` from the spec's past-end-of-text example. -/
def deleteTen : Operation :=
  { id := "d10", type := "delete", length := some 10, content := none,
    author := "a", timestamp := 1, fileId := "f" }

/-- C1: for the concurrent inserts `opA` (" Beautiful", author "a") and
`opB` (" Amazing", author "b") on base text "Hello", with
`A' = transform(opA, opB, true)` and `B' = transform(opB, opA, false)`,
the code yields `" Beautiful"` when applying A' then B' but
`" Beautiful Amazing"` when applying B' then A': the two application
orders do not converge, contradicting the diamond property the code's
own header documentation promises. -/
theorem transform_diamond_property_fails :
    transform opA opB true = some opA' ∧
    transform opB opA false = some opB' ∧
    applyOperation (applyOperation "Hello" opA') opB' = " Beautiful" ∧
    applyOperation (applyOperation "Hello" opB') opA' = " Beautiful Amazing" ∧
    applyOperation (applyOperation "Hello" opA') opB' ≠
      applyOperation (applyOperation "Hello" opB') opA' := by
  refine ⟨?_, ?_, by decide, by decide, by decide⟩
  · simp [transform, transformTextOperations, transformSteps, compactTextOperation, compactAux,
      operationToTextOp, textOpToOperation, stepType, stepContent, stepLength, opA, opB, opA']
  · simp [transform, transformTextOperations, transformSteps, compactTextOperation, compactAux,
      operationToTextOp, textOpToOperation, stepType, stepContent, stepLength, opA, opB, opB']
    decide

/-- C2: composing the validator-accepted sequential inserts `"ab"` then
`"cd"` on the same file gives the single insert `"abcd"`, but applying it
to `""` yields `"abcd"` while applying the two operations in sequence
yields `"cd"`: the composed operation is not equivalent to the sequence,
contradicting the stated purpose of the compose engine. -/
theorem compose_not_equivalent_to_sequence :
    isValidOperation c2op1 = true ∧ isValidOperation c2op2 = true ∧
    c2op1.fileId = c2op2.fileId ∧
    compose c2op1 c2op2 = ComposeResult.ok c2comp ∧
    applyOperation "" c2comp = "abcd" ∧
    applyOperation (applyOperation "" c2op1) c2op2 = "cd" ∧
    applyOperation "" c2comp ≠ applyOperation (applyOperation "" c2op1) c2op2 := by
  refine ⟨by decide, by decide, by decide, ?_, by decide, by decide, by decide⟩
  simp [compose, composeTextOperations, composeSteps, compactTextOperation, compactAux,
    operationToTextOp, textOpToOperation, stepType, stepContent, stepLength, c2op1, c2op2, c2comp]

/-- C3 counterexample: `apply("Hello World", Delete(length=6))` returns
`""`, not the claimed `"World"` — the apply engine never emits the part
of the text the script does not walk. -/
theorem apply_delete_six_counterexample :
    applyOperation "Hello World" deleteSix = "" ∧ ("" : String) ≠ "World" := by decide

/-- C3 amended: `apply("Hello World", Delete(length=6))` returns `""`
(the unwalked tail of the text is dropped, so a bare delete keeps
nothing); `apply("Hello World", Retain(length=5))` returns `"Hello"` and
`apply("", Insert("Hello"))` returns `"Hello"` as claimed. -/
theorem apply_examples_amended :
    applyOperation "Hello World" deleteSix = "" ∧
    applyOperation "Hello World" retainFive = "Hello" ∧
    applyOperation "" insertHello = "Hello" := by decide

/-- C5: transforming two operations that live on different files returns
the first operand unchanged, for either priority value. -/
theorem transform_cross_file_noop (op1 op2 : Operation) (priority : Bool)
    (h : op1.fileId ≠ op2.fileId) :
    transform op1 op2 priority = some op1 := by
  simp [transform, h]

/-- C5 witness: a concrete cross-file transform is the identity on its
first operand. -/
theorem transform_cross_file_noop_witness :
    transform deleteSix opA true = some deleteSix :=
  transform_cross_file_noop deleteSix opA true (by decide)

/-- C6: composing the valid operations `Insert("ab")` and
`Delete(length=2)` on the *same* file leaves an empty composed script, so
`textOpToOperation` reads `.type` of `undefined` and the code throws a
`TypeError` even though the file ids agree — `compose` does not raise
only on cross-file inputs as the spec claims. -/
theorem compose_type_error_same_file :
    c2op1.fileId = c6op2.fileId ∧
    isValidOperation c2op1 = true ∧ isValidOperation c6op2 = true ∧
    compose c2op1 c6op2 = ComposeResult.errorUndefinedFirstStep := by
  refine ⟨by decide, by decide, by decide, ?_⟩
  simp [compose, composeTextOperations, composeSteps, compactTextOperation, compactAux,
    operationToTextOp, textOpToOperation, c2op1, c6op2]

/-- A `substring` call that starts at 0 and whose end index reaches past
the end of the text returns the whole text (JavaScript clamps the end
index to the string length). -/
theorem jsSubstring_zero_of_ge (s : String) (n : Int) (h : (s.length : Int) ≤ n) :
    jsSubstring s 0 n = s := by
  have h0 : (0 : Int) ≤ (s.length : Int) := Int.ofNat_nonneg _
  have hx : clampIndex 0 s.length = 0 := by
    simp [clampIndex, min_eq_left h0]
  have hy : clampIndex n s.length = s.length := by
    simp [clampIndex, max_eq_left (le_trans h0 h), min_eq_right h]
  simp only [jsSubstring, hx, hy]
  rw [if_pos (Nat.zero_le _)]
  have hd : List.take s.length s.data = s.data := by
    rw [show s.length = s.data.length from rfl]
    simp
  simp [hd]

/-- C4: applying a validator-accepted operation never fails and returns a
string; a `Delete` or `Retain` whose length reaches past the end of the
text is clamped to what remains (a past-end delete leaves `""`, a
past-end retain copies the whole text), and in particular
`apply("Hi", Delete(length=10))` returns `""`. -/
theorem applyOperation_never_fails_and_clamps (text : String) (op : Operation)
    (_hv : isValidOperation op = true) :
    (∃ s, applyOperation text op = s) ∧
    (op.type = "delete" → ∀ n, op.length = some n → (text.length : Int) ≤ n →
        applyOperation text op = "") ∧
    (op.type = "retain" → ∀ n, op.length = some n → (text.length : Int) ≤ n →
        applyOperation text op = text) ∧
    applyOperation "Hi" deleteTen = "" := by
  refine ⟨⟨_, rfl⟩, ?_, ?_, by decide⟩
  · intro ht n hn _
    simp [applyOperation, operationToTextOp, ht, hn, applyTextOperation, applyTextOpsFrom]
  · intro ht n hn hle
    simp [applyOperation, operationToTextOp, ht, hn, applyTextOperation, applyTextOpsFrom]
    simpa using jsSubstring_zero_of_ge text n hle

/-- C4 witness: the past-end delete example, through the theorem at the
concrete operation `Delete(length=10)` on `"Hi"`. -/
theorem applyOperation_never_fails_and_clamps_witness :
    isValidOperation deleteTen = true ∧ applyOperation "Hi" deleteTen = "" :=
  ⟨by decide,
   (applyOperation_never_fails_and_clamps "Hi" deleteTen (by decide)).2.1
     rfl 10 rfl (by decide)⟩

/-- Modelled from the spec: the validity predicate exactly as claim C7
words it — the four required fields are present (which the record type
already guarantees), an `Insert` carries a non-empty `content`, and a
`Delete`/`Retain` carries a `length` strictly greater than 0. Used only
to compare the claim's wording against `isValidOperation`. -/
def operationClaimValid (op : Operation) : Bool :=
  if op.type = "insert" then
    match op.content with
    | some s => decide (s ≠ "")
    | none => false
  else if op.type = "delete" || op.type = "retain" then
    match op.length with
    | some n => decide (0 < n)
    | none => false
  else false

/-- An insert with non-empty content whose `id` is the empty string: all
fields are present, yet the validator's truthiness test rejects it. -/
def c7op : Operation :=
  { id := "", type := "insert", length := none, content := some "hi",
    author := "alice", timestamp := 1000, fileId := "doc1" }

/-- C7 counterexample: an operation that satisfies the claim's conditions
(all required fields present, insert with non-empty content) is
nevertheless rejected by `isValidOperation`, because the code's
truthiness test also rejects a present-but-empty `id`. -/
theorem isValidOperation_truthiness_counterexample :
    operationClaimValid c7op = true ∧ isValidOperation c7op = false := by decide

/-- A string has positive length exactly when it is not the empty
string. -/
theorem string_length_pos_iff (s : String) : 0 < s.length ↔ s ≠ "" := by
  cases s with
  | mk data =>
    cases data with
    | nil => decide
    | cons c cs =>
        constructor
        · intro _ hc
          have h2 : c :: cs = ([] : List Char) := congrArg String.data hc
          simp at h2
        · intro _
          simp [String.length]

/-- C7 amended: `is_valid(op)` returns true exactly when `id`, `author`
and `documentId` are non-empty strings and `timestamp` is non-zero (the
JavaScript truthiness reading of "present"), and additionally an `Insert`
has non-empty content and a `Delete`/`Retain` has length strictly greater
than 0; in every other case (including an unrecognized type) it returns
false. -/
theorem isValidOperation_iff (op : Operation) :
    isValidOperation op = true ↔
      op.id ≠ "" ∧ op.author ≠ "" ∧ op.fileId ≠ "" ∧ op.timestamp ≠ 0 ∧
      ((op.type = "insert" ∧ ∃ s, op.content = some s ∧ s ≠ "") ∨
       ((op.type = "delete" ∨ op.type = "retain") ∧ ∃ n, op.length = some n ∧ 0 < n)) := by
  unfold isValidOperation
  simp only [Bool.or_eq_true, decide_eq_true_eq, beq_iff_eq]
  split_ifs with h0 hins hdel
  · rcases h0 with ((h | h) | h) | h <;> simp [h]
  · push_neg at h0
    obtain ⟨⟨⟨hi, ha⟩, hf⟩, ht⟩ := h0
    cases hc : op.content with
    | none => simp [hins, hi, ha, hf, ht, hc]
    | some s => simp [hins, hi, ha, hf, ht, hc, string_length_pos_iff]
  · push_neg at h0
    obtain ⟨⟨⟨hi, ha⟩, hf⟩, ht⟩ := h0
    cases hl : op.length with
    | none => simp [hins, hdel, hi, ha, hf, ht, hl]
    | some n => simp [hins, hdel, hi, ha, hf, ht, hl]
  · push_neg at h0
    obtain ⟨⟨⟨hi, ha⟩, hf⟩, ht⟩ := h0
    simp [hins, hdel, hi, ha, hf, ht]

/-- C9 amended: for every history state and every *non-zero* timestamp
`t`, `since(documentId, t)` returns exactly the recorded operations of
that document with timestamp strictly greater than `t`, in append order
(the filter preserves order); at `t = 0` the truthiness test skips the
filter and the whole log is returned instead. -/
theorem getOperations_since_filters (st : String → List Operation) (fileId : String)
    (t : Int) (h : t ≠ 0) :
    getOperations st fileId (some t) =
      (st fileId).filter (fun op => decide (t < op.timestamp)) := by
  simp [getOperations, h]

/-- A recorded operation carrying timestamp 0. -/
def c9op : Operation :=
  { id := "z", type := "insert", length := none, content := some "x",
    author := "a", timestamp := 0, fileId := "doc1" }

/-- History holding only `c9op`. -/
def c9state : String → List Operation := addOperation emptyHistory "doc1" c9op

/-- C9 counterexample: with the timestamp argument 0 the code skips the
filter (JavaScript truthiness) and returns the whole log, not the
operations with timestamp strictly greater than 0. -/
theorem getOperations_zero_counterexample :
    getOperations c9state "doc1" (some 0) ≠
      (c9state "doc1").filter (fun op => decide ((0 : Int) < op.timestamp)) := by decide

/-- Operation with timestamp 1000 for the history-windowing example. -/
def opTs1000 : Operation :=
  { id := "h1", type := "insert", length := none, content := some "x",
    author := "a", timestamp := 1000, fileId := "doc1" }

/-- Operation with timestamp 2000 for the history-windowing example. -/
def opTs2000 : Operation :=
  { id := "h2", type := "insert", length := none, content := some "y",
    author := "a", timestamp := 2000, fileId := "doc1" }

/-- History after appending the timestamp-1000 and timestamp-2000
operations. -/
def c9state2 : String → List Operation :=
  addOperation (addOperation emptyHistory "doc1" opTs1000) "doc1" opTs2000

/-- C9 witness: after appending operations with timestamps 1000 and 2000,
`since(documentId, 1500)` returns exactly the timestamp-2000 operation. -/
theorem getOperations_since_filters_witness :
    getOperations c9state2 "doc1" (some 1500) = [opTs2000] := by
  rw [getOperations_since_filters c9state2 "doc1" 1500 (by decide)]
  decide

/-- C10: a same-file transform that returns an operation keeps the first
operand's `id`, `author`, `timestamp` and `documentId` unchanged — only
`type`, `content` and `length` are rewritten, because
`textOpToOperation` spreads the first operand's record and overrides
exactly those three fields. -/
theorem transform_preserves_metadata (op1 op2 : Operation) (priority : Bool) (r : Operation)
    (hfile : op1.fileId = op2.fileId) (hr : transform op1 op2 priority = some r) :
    r.id = op1.id ∧ r.author = op1.author ∧ r.timestamp = op1.timestamp ∧
      r.fileId = op1.fileId := by
  unfold transform at hr
  rw [if_neg (by simp [hfile])] at hr
  rcases hL : transformTextOperations (operationToTextOp op1) (operationToTextOp op2) priority
    with - | ⟨f, t⟩ <;> rw [hL] at hr
  · simp [textOpToOperation] at hr
  · simp only [textOpToOperation, Option.some.injEq] at hr
    subst hr
    simp

/-- First operand for the C10 witness: author `a` inserts `"x"`. -/
def w10a : Operation :=
  { id := "w10a", type := "insert", length := none, content := some "x",
    author := "a", timestamp := 1, fileId := "docW" }

/-- Second operand for the C10 witness: author `b` inserts `"y"`. -/
def w10b : Operation :=
  { id := "w10b", type := "insert", length := none, content := some "y",
    author := "b", timestamp := 1, fileId := "docW" }

/-- Value of `transform(w10a, w10b, true)`. -/
def w10r : Operation :=
  { id := "w10a", type := "insert", length := none, content := some "xy",
    author := "a", timestamp := 1, fileId := "docW" }

/-- C10 witness: the concrete same-file transform of `w10a` against
`w10b` keeps `w10a`'s metadata. -/
theorem transform_preserves_metadata_witness :
    w10r.id = w10a.id ∧ w10r.author = w10a.author ∧ w10r.timestamp = w10a.timestamp ∧
      w10r.fileId = w10a.fileId :=
  transform_preserves_metadata w10a w10b true w10r (by decide)
    (by simp [transform, transformTextOperations, transformSteps, compactTextOperation,
      compactAux, operationToTextOp, textOpToOperation, stepType, stepContent, stepLength,
      w10a, w10b, w10r])

/-- After any single append the per-file log never exceeds the capacity:
either the push stayed within bounds or the splice trimmed it back to
exactly `maxHistorySize`. -/
theorem drop_index_congr {a b : Nat} (l : List Operation) (hab : a = b) :
    l.drop a = l.drop b := by rw [hab]

/-- Unfolding of `addOperationList` with its local binding expanded. -/
theorem addOperationList_def (h : List Operation) (op : Operation) :
    addOperationList h op =
      if maxHistorySize < (h ++ [op]).length then
        (h ++ [op]).drop ((h ++ [op]).length - maxHistorySize)
      else h ++ [op] := rfl

/-- After any single append the per-file log never exceeds the capacity:
either the push stayed within bounds or the splice trimmed it back to
exactly `maxHistorySize`. -/
theorem addOperationList_length_le (h : List Operation) (op : Operation) :
    (addOperationList h op).length ≤ maxHistorySize := by
  rw [addOperationList_def]
  split
  · simp only [List.length_drop]
    omega
  · next hc => omega

/-- On a log within capacity, one append keeps the newest
`maxHistorySize` entries: it equals push-then-drop-from-the-front. -/
theorem addOperationList_eq_drop (h : List Operation) (op : Operation) :
    addOperationList h op = (h ++ [op]).drop ((h.length + 1) - maxHistorySize) := by
  rw [addOperationList_def]
  split
  · apply drop_index_congr
    simp only [List.length_append, List.length_cons, List.length_nil, Nat.zero_add]
  · next hc =>
      rw [show h.length + 1 - maxHistorySize = 0 from by
        simp only [List.length_append, List.length_cons, List.length_nil] at hc
        omega]
      simp

/-- Generalised replay invariant for C8: starting from any in-capacity
history map, folding a sequence of appends leaves each file's log equal
to the last `maxHistorySize` entries of (previous log ++ the operations
appended to that file, in order). -/
theorem runAppends_general (calls : List (String × Operation)) :
    ∀ (st : String → List Operation), (∀ g, (st g).length ≤ maxHistorySize) →
    ∀ f,
      calls.foldl (fun st c => addOperation st c.1 c.2) st f =
        (st f ++ (calls.filter (fun c => decide (c.1 = f))).map Prod.snd).drop
          ((st f ++ (calls.filter (fun c => decide (c.1 = f))).map Prod.snd).length -
            maxHistorySize) := by
  induction calls with
  | nil =>
      intro st hst f
      simp [Nat.sub_eq_zero_of_le (hst f)]
  | cons c rest ih =>
      intro st hst f
      have hst' : ∀ g, ((addOperation st c.1 c.2) g).length ≤ maxHistorySize := by
        intro g
        unfold addOperation
        by_cases hg : g = c.1
        · simp [hg, addOperationList_length_le]
        · simp [hg]
          exact hst g
      rw [List.foldl_cons, ih (addOperation st c.1 c.2) hst' f]
      by_cases hf : c.1 = f
      · have hfc : f = c.1 := hf.symm
        have haddf : (addOperation st c.1 c.2) f = addOperationList (st f) c.2 := by
          simp [addOperation, hfc]
        rw [haddf, addOperationList_eq_drop (st f) c.2]
        rw [List.filter_cons_of_pos (by simp [hf]), List.map_cons]
        have hkle : (st f).length + 1 - maxHistorySize ≤ (st f ++ [c.2]).length := by
          simp [List.length_append]
        rw [← List.drop_append_of_le_length hkle]
        rw [List.drop_drop]
        rw [show ((st f ++ [c.2]) ++
              (rest.filter (fun c => decide (c.1 = f))).map Prod.snd) =
            (st f ++ c.2 :: (rest.filter (fun c => decide (c.1 = f))).map Prod.snd) by simp]
        apply drop_index_congr
        have hstf := hst f
        simp only [List.length_drop, List.length_append, List.length_cons]
        omega
      · have hfc : ¬(f = c.1) := fun hq => hf hq.symm
        have haddf : (addOperation st c.1 c.2) f = st f := by
          simp [addOperation, hfc]
        rw [haddf, List.filter_cons_of_neg (by simp [hf])]

/-- C8: replaying any sequence of `addOperation` calls from a fresh
history, every document's log holds at most 1000 operations (the
configured `maxHistorySize`), and it equals exactly the most recently
appended operations for that document, in append order (the oldest
entries beyond the bound are dropped first). -/
theorem history_bounded_fifo (calls : List (String × Operation)) (f : String) :
    (runAppends calls f).length ≤ maxHistorySize ∧
    runAppends calls f =
      ((calls.filter (fun c => decide (c.1 = f))).map Prod.snd).drop
        (((calls.filter (fun c => decide (c.1 = f))).map Prod.snd).length -
          maxHistorySize) := by
  have h := runAppends_general calls emptyHistory
    (by intro g; simp [emptyHistory]) f
  constructor
  · rw [runAppends, h]
    simp only [List.length_drop]
    omega
  · rw [runAppends, h]
    simp [emptyHistory]

end CodeSync
